import Mathlib

/-!
Shallow embedding of `src/services/database.js` (class `DatabaseService`)
of the whatsapp-food-agent repository, together with theorems settling the
specification claims about its data-access layer.

Modelling conventions:
* The two remote stores are explicit state (`SupabaseDB`, `SheetsStore`)
  threaded through the operations; `World.now` is the call-time clock
  (`Date.now()` / `new Date().toISOString()`, with ISO strings represented
  by their millisecond timestamps, which preserves ordering).
* JavaScript exceptions become `Except DbError`; each method's
  `catch (error) { logger.error(...); throw error; }` only logs and
  rethrows, which is the identity on the error path, so it is not
  reflected by extra structure.
* JavaScript numbers that can be `NaN` (results of `parseInt`/`parseFloat`)
  are `Option Int` / `Option Rat` with `none` for `NaN`; missing cells
  (`row[i]` past the end) are `none : Option String` for `undefined`.
-/

namespace FoodAgent

/-- Errors the service can raise. `noConfig` is
`new Error('No database configuration found')`; `singleNoRow` is the
PostgREST error a supabase `.single()` call yields when the filter does not
match exactly one row; `typeError` is the JavaScript `TypeError` thrown by
calling `.toLowerCase()` on `undefined`. -/
inductive DbError where
  | noConfig
  | singleNoRow
  | typeError
deriving DecidableEq, Repr

/-- The recognized environment variables (constructor lines 8–23). -/
structure Env where
  SUPABASE_URL : Option String
  SUPABASE_ANON_KEY : Option String
  GOOGLE_SHEETS_API_KEY : Option String
  GOOGLE_SHEETS_SPREADSHEET_ID : Option String

/-- JavaScript truthiness of `process.env.X`: `undefined` and the empty
string are falsy, every other string is truthy. -/
def envTruthy : Option String → Bool
  | none => false
  | some s => s != ""

/-- The facade's own state after construction: whether each client was
created, and the configured spreadsheet id. -/
structure DatabaseService where
  supabase : Bool
  sheets : Bool
  spreadsheetId : Option String
deriving DecidableEq

/-- `new DatabaseService()` (lines 6–24): the supabase client exists iff
both `SUPABASE_URL` and `SUPABASE_ANON_KEY` are truthy, the sheets client
iff `GOOGLE_SHEETS_API_KEY` is truthy. Construction is a total function:
it performs no I/O and raises nothing. -/
def DatabaseService.make (env : Env) : DatabaseService where
  supabase := envTruthy env.SUPABASE_URL && envTruthy env.SUPABASE_ANON_KEY
  sheets := envTruthy env.GOOGLE_SHEETS_API_KEY
  spreadsheetId := env.GOOGLE_SHEETS_SPREADSHEET_ID

/-- An inventory record as the facade hands it to callers. Supabase rows
and parsed sheet rows share this shape (lines 46–52). `none` in a numeric
field models `NaN`, in `name` it models `undefined`. -/
structure InventoryItem where
  id : Option Int
  name : Option String
  price : Option Rat
  quantity : Option Int
  is_available : Bool
deriving DecidableEq, Repr

/-- An order row (`orders` table / the object built at lines 103–110,
plus the backend- or locally-assigned `id`). `items` is the
JSON-serialized string, `created_at` the millisecond timestamp standing
for the ISO-8601 string. -/
structure OrderRow where
  id : Int
  customer_phone : String
  customer_name : String
  items : String
  total_amount : Rat
  status : String
  created_at : Nat
deriving DecidableEq, Repr

/-- A FAQ record (lines 214–219). -/
structure FAQ where
  id : Option Int
  question : Option String
  answer : Option String
  is_active : Bool
deriving DecidableEq, Repr

/-- The relational backend's state. `nextOrderId` models the
backend-generated primary key for the next inserted order. -/
structure SupabaseDB where
  inventory : List InventoryItem
  orders : List OrderRow
  faqs : List FAQ
  nextOrderId : Int
deriving DecidableEq

/-- One cell of an appended spreadsheet row: the JS payload mixes strings
and numbers; `time t` stands for the ISO string of timestamp `t`. -/
inductive CellValue where
  | str (s : String)
  | num (q : Rat)
  | time (t : Nat)
deriving DecidableEq

/-- The spreadsheet backend's state: the fetched value ranges
(`response.data.values` is `undefined`, i.e. `none`, when the range holds
no data) and the rows appended to `Orders!A:G`. -/
structure SheetsStore where
  inventoryValues : Option (List (List String))
  faqValues : Option (List (List String))
  orderRows : List (List CellValue)
deriving DecidableEq

/-- Everything outside the facade that an operation can read or write,
plus the call-time clock. -/
structure World where
  db : SupabaseDB
  sheets : SheetsStore
  now : Nat
deriving DecidableEq

deriving instance DecidableEq for Except

/-- Models JavaScript `parseInt` on decimal input: skip leading
whitespace, read an optional sign and then leading decimal digits;
`none` (`NaN`) when no digit is found. -/
def parseIntJs (s : String) : Option Int :=
  let cs := s.toList.dropWhile (·.isWhitespace)
  let signAndRest : Bool × List Char :=
    match cs with
    | '-' :: rest => (true, rest)
    | '+' :: rest => (false, rest)
    | other => (false, other)
  let digits := signAndRest.2.takeWhile (·.isDigit)
  if digits.isEmpty then none
  else
    let n : Nat := digits.foldl (fun acc c => acc * 10 + (c.toNat - '0'.toNat)) 0
    some (if signAndRest.1 then -(n : Int) else (n : Int))

/-- Models JavaScript `parseFloat` on plain decimal input (sign, integer
digits, optional fraction); `none` (`NaN`) when no digit is found. -/
def parseFloatJs (s : String) : Option Rat :=
  let cs := s.toList.dropWhile (·.isWhitespace)
  let signAndRest : Bool × List Char :=
    match cs with
    | '-' :: rest => (true, rest)
    | '+' :: rest => (false, rest)
    | other => (false, other)
  let intDigits := signAndRest.2.takeWhile (·.isDigit)
  let afterInt := signAndRest.2.drop intDigits.length
  let fracDigits : List Char :=
    match afterInt with
    | '.' :: rest => rest.takeWhile (·.isDigit)
    | _ => []
  if intDigits.isEmpty && fracDigits.isEmpty then none
  else
    let ip : Nat := intDigits.foldl (fun acc c => acc * 10 + (c.toNat - '0'.toNat)) 0
    let fp : Nat := fracDigits.foldl (fun acc c => acc * 10 + (c.toNat - '0'.toNat)) 0
    let mag : Nat := ip * 10 ^ fracDigits.length + fp
    let n : Int := if signAndRest.1 then -(mag : Int) else (mag : Int)
    some (mkRat n (10 ^ fracDigits.length))

/-- Whether `pat` occurs at the start of `hay` (character lists). -/
def startsWithChars : List Char → List Char → Bool
  | _, [] => true
  | [], _ :: _ => false
  | c :: hay, p :: pat => c == p && startsWithChars hay pat

/-- Whether `pat` occurs as a contiguous run inside `hay`. -/
def charsInclude (hay pat : List Char) : Bool :=
  match hay with
  | [] => startsWithChars [] pat
  | c :: rest => startsWithChars (c :: rest) pat || charsInclude rest pat

/-- JavaScript `hay.includes(pat)`: substring containment. -/
def jsIncludes (hay pat : String) : Bool :=
  charsInclude hay.toList pat.toList

/-- JavaScript `s.toLowerCase()`, modelled characterwise. -/
def jsToLower (s : String) : String :=
  String.mk (s.toList.map Char.toLower)

/-- `row[i]?.toLowerCase() === 'true'` (lines 51 and 218): `false` when
the cell is missing. -/
def cellFlagTrue : Option String → Bool
  | none => false
  | some s => jsToLower s == "true"

/-- Parse one `Inventory!A2:E1000` row positionally (lines 46–52). -/
def parseInventoryRow (row : List String) : InventoryItem where
  id := (row.get? 0).bind parseIntJs
  name := row.get? 1
  price := (row.get? 2).bind parseFloatJs
  quantity := (row.get? 3).bind parseIntJs
  is_available := cellFlagTrue (row.get? 4)

/-- The sheets branch of `getInventory` (lines 40–53):
`values?.map(parse).filter(available) || []`. -/
def sheetInventoryItems : Option (List (List String)) → List InventoryItem
  | none => []
  | some rows => (rows.map parseInventoryRow).filter (·.is_available)

/-- `getInventory()` (lines 28–60): supabase branch filters
`is_available = true` server-side; sheets branch parses the fixed range;
with neither client, `Error('No database configuration found')`. -/
def DatabaseService.getInventory (svc : DatabaseService) (w : World) :
    Except DbError (List InventoryItem) :=
  if svc.supabase then
    .ok (w.db.inventory.filter (·.is_available))
  else if svc.sheets then
    .ok (sheetInventoryItems w.sheets.inventoryValues)
  else
    .error .noConfig

/-- The spec's inventory invariant `is_available == (quantity > 0)`, with
JavaScript comparison semantics: `NaN > 0` is `false`. -/
def quantityPositive : Option Int → Bool
  | none => false
  | some q => decide (0 < q)

/-- The record-level inventory invariant of spec §3. -/
def invariantOk (item : InventoryItem) : Prop :=
  item.is_available = quantityPositive item.quantity

instance (item : InventoryItem) : Decidable (invariantOk item) := by
  unfold invariantOk; infer_instance

/-- The `inventory.find(...)` callback of `getItemByName` (lines 65–67),
run left to right with JavaScript evaluation: reading `.toLowerCase()` of
an `undefined` name throws before any later item is inspected. -/
def findItemByName (itemName : String) : List InventoryItem →
    Except DbError (Option InventoryItem)
  | [] => .ok none
  | item :: rest =>
    match item.name with
    | none => .error .typeError
    | some n =>
      if jsIncludes (jsToLower n) (jsToLower itemName) then .ok (some item)
      else findItemByName itemName rest

/-- `getItemByName(itemName)` (lines 62–72). -/
def DatabaseService.getItemByName (svc : DatabaseService) (w : World)
    (itemName : String) : Except DbError (Option InventoryItem) :=
  match svc.getInventory w with
  | .error e => .error e
  | .ok inventory => findItemByName itemName inventory

/-- The supabase `update({quantity, is_available}).eq('id', itemId)` of
`updateInventoryQuantity` (lines 77–83), applied to the world. -/
def applyInventoryUpdate (w : World) (itemId newQuantity : Int) : World :=
  { w with db := { w.db with inventory := w.db.inventory.map fun row =>
      if row.id == (some itemId) then
        { row with quantity := some newQuantity,
                   is_available := decide (0 < newQuantity) }
      else row } }

/-- `updateInventoryQuantity(itemId, newQuantity)` (lines 74–97): supabase
branch updates every row with this id and returns `true`; otherwise the
sheets update is not implemented, so it warns and returns `false`. -/
def DatabaseService.updateInventoryQuantity (svc : DatabaseService)
    (w : World) (itemId newQuantity : Int) : Except DbError (Bool × World) :=
  if svc.supabase then
    .ok (true, applyInventoryUpdate w itemId newQuantity)
  else
    .ok (false, w)

/-- One element of `orderData.items`. -/
structure OrderItem where
  itemId : Int
  quantity : Int
deriving DecidableEq, Repr

/-- The argument of `createOrder` (lines 101–110). -/
structure OrderData where
  customerPhone : String
  customerName : String
  items : List OrderItem
  totalAmount : Rat
deriving DecidableEq

/-- `JSON.stringify` of one `{itemId, quantity}` object. -/
def stringifyOrderItem (it : OrderItem) : String :=
  "\x7b\"itemId\":" ++ toString it.itemId ++ ",\"quantity\":" ++
    toString it.quantity ++ "\x7d"

/-- `JSON.stringify(orderData.items)` (line 106). -/
def stringifyItems (items : List OrderItem) : String :=
  "[" ++ String.intercalate "," (items.map stringifyOrderItem) ++ "]"

/-- The order record built at lines 103–110 together with its `id`
(backend-generated on supabase, `Date.now()` on sheets). -/
def orderRecord (orderData : OrderData) (created : Nat) (id : Int) :
    OrderRow where
  id := id
  customer_phone := orderData.customerPhone
  customer_name := orderData.customerName
  items := stringifyItems orderData.items
  total_amount := orderData.totalAmount
  status := "pending"
  created_at := created

/-- The world after the supabase `insert` of `createOrder` (lines
112–121): the row is stored with the backend-generated id. -/
def applyCreateOrderSupabase (w : World) (orderData : OrderData) : World :=
  { w with db := { w.db with
      orders := w.db.orders ++ [orderRecord orderData w.now w.db.nextOrderId],
      nextOrderId := w.db.nextOrderId + 1 } }

/-- The row appended to `Orders!A:G` by the sheets branch of
`createOrder` (lines 124–139): the id cell is left blank. -/
def sheetsOrderValues (orderData : OrderData) (created : Nat) :
    List CellValue :=
  [.str "", .str orderData.customerPhone, .str orderData.customerName,
   .str (stringifyItems orderData.items), .num orderData.totalAmount,
   .str "pending", .time created]

/-- The world after the sheets `append` of `createOrder`. -/
def applyCreateOrderSheets (w : World) (orderData : OrderData) : World :=
  { w with sheets := { w.sheets with
      orderRows := w.sheets.orderRows ++ [sheetsOrderValues orderData w.now] } }

/-- `createOrder(orderData)` (lines 101–150): supabase insert returns the
inserted row (`data[0]`); the sheets branch appends a row and returns
`{...order, id: Date.now()}`; with neither client it throws
`Error('No database configuration found')`. -/
def DatabaseService.createOrder (svc : DatabaseService) (w : World)
    (orderData : OrderData) : Except DbError (OrderRow × World) :=
  if svc.supabase then
    .ok (orderRecord orderData w.now w.db.nextOrderId,
         applyCreateOrderSupabase w orderData)
  else if svc.sheets then
    .ok (orderRecord orderData w.now (w.now : Int),
         applyCreateOrderSheets w orderData)
  else
    .error .noConfig

/-- The ordering `.order('created_at', { ascending: false })` requests
from the store: newer (larger) timestamps first. -/
def newestFirst (a b : OrderRow) : Prop :=
  b.created_at ≤ a.created_at

instance : DecidableRel newestFirst := fun a b =>
  inferInstanceAs (Decidable (b.created_at ≤ a.created_at))

instance : IsTotal OrderRow newestFirst :=
  ⟨fun a b => Nat.le_total b.created_at a.created_at⟩

instance : IsTrans OrderRow newestFirst :=
  ⟨fun _ _ _ hab hbc => le_trans hbc hab⟩

/-- The supabase query of `getOrdersByPhone` (lines 154–159):
`.eq('customer_phone', customerPhone).order('created_at', {ascending:
false})`, the store's sort modelled by a stable sort. -/
def phoneOrdersSorted (w : World) (customerPhone : String) : List OrderRow :=
  List.insertionSort newestFirst
    (w.db.orders.filter fun o => o.customer_phone == customerPhone)

/-- `getOrdersByPhone(customerPhone)` (lines 152–172): supabase branch
filters on equality of `customer_phone` and sorts newest-first; otherwise
the sheets lookup is not implemented, so it warns and returns `[]`. -/
def DatabaseService.getOrdersByPhone (svc : DatabaseService) (w : World)
    (customerPhone : String) : Except DbError (List OrderRow) :=
  if svc.supabase then
    .ok (phoneOrdersSorted w customerPhone)
  else
    .ok []

/-- `getOrderById(orderId)` (lines 174–192): the supabase `.single()`
yields the row when the id filter matches exactly one row and an error
otherwise (which line 183 throws); without the supabase client the method
returns `null`. -/
def DatabaseService.getOrderById (svc : DatabaseService) (w : World)
    (orderId : Int) : Except DbError (Option OrderRow) :=
  if svc.supabase then
    match w.db.orders.filter (fun o => o.id == orderId) with
    | [o] => .ok (some o)
    | _ => .error .singleNoRow
  else
    .ok none

/-- Parse one `FAQs!A2:D1000` row positionally (lines 214–219). -/
def parseFAQRow (row : List String) : FAQ where
  id := (row.get? 0).bind parseIntJs
  question := row.get? 1
  answer := row.get? 2
  is_active := cellFlagTrue (row.get? 3)

/-- The sheets branch of `getFAQs` (lines 208–220). -/
def sheetFAQItems : Option (List (List String)) → List FAQ
  | none => []
  | some rows => (rows.map parseFAQRow).filter (·.is_active)

/-- `getFAQs()` (lines 196–227): supabase branch filters
`is_active = true` server-side; sheets branch parses the fixed range; with
neither client, `Error('No database configuration found')`. -/
def DatabaseService.getFAQs (svc : DatabaseService) (w : World) :
    Except DbError (List FAQ) :=
  if svc.supabase then
    .ok (w.db.faqs.filter (·.is_active))
  else if svc.sheets then
    .ok (sheetFAQItems w.sheets.faqValues)
  else
    .error .noConfig

/-- The `faqs.find(...)` callback of `searchFAQ` (lines 232–235), with
JavaScript evaluation order: the question is lowered first (throwing on
`undefined`), and the answer is only touched when the question does not
match. -/
def findFAQ (query : String) : List FAQ → Except DbError (Option FAQ)
  | [] => .ok none
  | faq :: rest =>
    match faq.question with
    | none => .error .typeError
    | some q =>
      if jsIncludes (jsToLower q) (jsToLower query) then .ok (some faq)
      else
        match faq.answer with
        | none => .error .typeError
        | some a =>
          if jsIncludes (jsToLower a) (jsToLower query) then .ok (some faq)
          else findFAQ query rest

/-- `searchFAQ(query)` (lines 229–240). -/
def DatabaseService.searchFAQ (svc : DatabaseService) (w : World)
    (query : String) : Except DbError (Option FAQ) :=
  match svc.getFAQs w with
  | .error e => .error e
  | .ok faqs => findFAQ query faqs

/-! ### Concrete fixtures used by counterexamples and witnesses -/

/-- An environment with no backend configured. -/
def envNoConfig : Env :=
  ⟨none, none, none, none⟩

/-- An environment configuring only the relational backend. -/
def envRelational : Env :=
  ⟨some "https://db.example", some "anon-key", none, none⟩

/-- An environment configuring only the spreadsheet backend. -/
def envSpreadsheet : Env :=
  ⟨none, none, some "sheets-key", some "sheet-1"⟩

/-- The facade constructed with no backend. -/
def svcNoConfig : DatabaseService := .make envNoConfig

/-- The facade constructed on the relational adapter. -/
def svcRelational : DatabaseService := .make envRelational

/-- The facade constructed on the spreadsheet adapter. -/
def svcSpreadsheet : DatabaseService := .make envSpreadsheet

/-- An empty relational store. -/
def emptyDb : SupabaseDB := ⟨[], [], [], 1⟩

/-- A spreadsheet store whose ranges hold no data. -/
def emptySheets : SheetsStore := ⟨none, none, []⟩

/-- A world with empty stores at time 0. -/
def w0 : World := ⟨emptyDb, emptySheets, 0⟩

/-- A sheet inventory row whose quantity is 0 while its availability cell
reads "true": the stored data violates the spec invariant. -/
def staleRow : List String := ["1", "Pizza", "5", "0", "true"]

/-- A world whose spreadsheet inventory holds only `staleRow`. -/
def wStale : World := ⟨emptyDb, ⟨some [staleRow], none, []⟩, 0⟩

/-- A well-formed relational inventory row. -/
def goodItem : InventoryItem :=
  ⟨some 1, some "Pizza", some (mkRat 5 1), some 2, true⟩

/-- A world whose relational inventory holds only `goodItem`. -/
def wGood : World := ⟨⟨[goodItem], [], [], 1⟩, emptySheets, 0⟩

/-- The order payload of the spec's §8 example. -/
def orderDataEx : OrderData :=
  ⟨"+1555", "Alice", [⟨1, 2⟩], mkRat 1998 100⟩

/-- A stored relational order with timestamp 5. -/
def orderEx : OrderRow :=
  ⟨7, "+1555", "Alice", "[]", mkRat 1998 100, "pending", 5⟩

/-- A relational world holding only `orderEx`, at time 10. -/
def wOneOrder : World := ⟨⟨[], [orderEx], [], 8⟩, emptySheets, 10⟩

/-- An inventory row whose name contains "burger" case-insensitively. -/
def burgerItem : InventoryItem :=
  ⟨some 2, some "Cheese Burger", some (mkRat 9 2), some 3, true⟩

/-- A world whose relational inventory holds only `burgerItem`. -/
def wBurger : World := ⟨⟨[burgerItem], [], [], 1⟩, emptySheets, 0⟩

/-- A FAQ whose answer mentions "refund" while its question does not. -/
def refundFAQ : FAQ :=
  ⟨some 1, some "How do I cancel?", some "You will get a refund in 3 days.",
   true⟩

/-- A world whose relational FAQ table holds only `refundFAQ`. -/
def wFAQ : World := ⟨⟨[], [], [refundFAQ], 1⟩, emptySheets, 0⟩

/-! ### Helper predicates and lemmas -/

/-- The Boolean match predicate `getItemByName` applies to an item whose
name is present: the lowered name contains the lowered query. -/
def matchesName (itemName : String) (item : InventoryItem) : Bool :=
  jsIncludes (jsToLower (item.name.getD "")) (jsToLower itemName)

/-- The Boolean match predicate `searchFAQ` applies to a FAQ whose fields
are present: the lowered question or the lowered answer contains the
lowered query. -/
def matchesFAQ (query : String) (faq : FAQ) : Bool :=
  jsIncludes (jsToLower (faq.question.getD "")) (jsToLower query) ||
  jsIncludes (jsToLower (faq.answer.getD "")) (jsToLower query)

/-- When every item has a name, the `find` callback of `getItemByName`
agrees with `List.find?` of `matchesName`. -/
theorem findItemByName_eq_find (itemName : String) :
    ∀ items : List InventoryItem, (∀ i ∈ items, i.name.isSome) →
      findItemByName itemName items = .ok (items.find? (matchesName itemName))
  | [], _ => rfl
  | item :: rest, h => by
    obtain ⟨n, hn⟩ := Option.isSome_iff_exists.mp (h item (List.mem_cons_self _ _))
    have hrec := findItemByName_eq_find itemName rest
      (fun i hi => h i (List.mem_cons_of_mem _ hi))
    have hpred : matchesName itemName item =
        jsIncludes (jsToLower n) (jsToLower itemName) := by
      simp [matchesName, hn]
    cases hm : jsIncludes (jsToLower n) (jsToLower itemName) with
    | true => simp [findItemByName, hn, hm, List.find?_cons, hpred]
    | false => simp [findItemByName, hn, hm, List.find?_cons, hpred, hrec]

/-- When every FAQ has a question and an answer, the `find` callback of
`searchFAQ` agrees with `List.find?` of `matchesFAQ`. -/
theorem findFAQ_eq_find (query : String) :
    ∀ faqs : List FAQ, (∀ f ∈ faqs, f.question.isSome ∧ f.answer.isSome) →
      findFAQ query faqs = .ok (faqs.find? (matchesFAQ query))
  | [], _ => rfl
  | faq :: rest, h => by
    obtain ⟨hq, ha⟩ := h faq (List.mem_cons_self _ _)
    obtain ⟨q, hq⟩ := Option.isSome_iff_exists.mp hq
    obtain ⟨a, ha⟩ := Option.isSome_iff_exists.mp ha
    have hrec := findFAQ_eq_find query rest
      (fun f hf => h f (List.mem_cons_of_mem _ hf))
    have hpred : matchesFAQ query faq =
        (jsIncludes (jsToLower q) (jsToLower query) ||
         jsIncludes (jsToLower a) (jsToLower query)) := by
      simp [matchesFAQ, hq, ha]
    cases hmq : jsIncludes (jsToLower q) (jsToLower query) with
    | true => simp [findFAQ, hq, ha, hmq, List.find?_cons, hpred]
    | false =>
      cases hma : jsIncludes (jsToLower a) (jsToLower query) with
      | true => simp [findFAQ, hq, ha, hmq, hma, List.find?_cons, hpred]
      | false => simp [findFAQ, hq, ha, hmq, hma, List.find?_cons, hpred, hrec]

/-- `List.find?` returns the first match: prepending non-matching
elements to a matching one finds exactly that one. -/
theorem find_first_append {α : Type _} (p : α → Bool) :
    ∀ (l1 : List α) (j : α) (l2 : List α), p j = true →
      (∀ i ∈ l1, p i = false) → (l1 ++ j :: l2).find? p = some j
  | [], j, l2, hj, _ => by simp [List.find?_cons, hj]
  | a :: l1, j, l2, hj, h => by
    have ha := h a (List.mem_cons_self _ _)
    simp only [List.cons_append, List.find?_cons, ha]
    exact find_first_append p l1 j l2 hj
      (fun i hi => h i (List.mem_cons_of_mem _ hi))

/-- The element with a strictly newest timestamp comes out first from the
newest-first sort. -/
theorem head_insertionSort_newest (l0 : List OrderRow) (x : OrderRow)
    (h : ∀ y ∈ l0, y.created_at < x.created_at) :
    (List.insertionSort newestFirst (l0 ++ [x])).head? = some x := by
  have hperm : (List.insertionSort newestFirst (l0 ++ [x])).Perm (l0 ++ [x]) :=
    List.perm_insertionSort _ _
  have hsorted : List.Sorted newestFirst
      (List.insertionSort newestFirst (l0 ++ [x])) :=
    List.sorted_insertionSort _ _
  have hx : x ∈ List.insertionSort newestFirst (l0 ++ [x]) :=
    hperm.mem_iff.mpr (List.mem_append_right _ (List.mem_singleton_self x))
  cases hS : List.insertionSort newestFirst (l0 ++ [x]) with
  | nil => rw [hS] at hx; cases hx
  | cons z t =>
    rw [hS] at hx hsorted hperm
    have hz : z ∈ l0 ++ [x] := hperm.mem_iff.mp (List.mem_cons_self _ _)
    rcases List.mem_append.mp hz with hz0 | hzx
    · have hzlt := h z hz0
      rcases List.mem_cons.mp hx with hxz | hxt
      · rw [hxz] at hzlt
        exact absurd hzlt (lt_irrefl _)
      · have hle : x.created_at ≤ z.created_at :=
          List.rel_of_sorted_cons hsorted x hxt
        exact absurd (lt_of_lt_of_le hzlt hle) (lt_irrefl _)
    · rw [List.mem_singleton.mp hzx]
      rfl

/-! ### Claims -/

/-- C1: counterexample — on the spreadsheet adapter, a stored row whose
quantity cell is "0" but whose availability cell is "true" is returned by
`getInventory()` even though it violates `is_available == (quantity > 0)`:
neither adapter re-checks the invariant on read. -/
theorem C1_counterexample :
    svcSpreadsheet.getInventory wStale = .ok [parseInventoryRow staleRow] ∧
    (parseInventoryRow staleRow).is_available = true ∧
    (parseInventoryRow staleRow).quantity = some 0 ∧
    ¬ invariantOk (parseInventoryRow staleRow) := by
  decide

/-- C1 (amended): every inventory item returned by `getInventory()` has
`is_available = true` on either adapter, and whenever every stored row
(relational table row / parsed sheet row) satisfies
`is_available == (quantity > 0)`, every returned item satisfies it too;
the invariant itself is only enforced on write, not re-checked on read. -/
theorem C1_getInventory_invariant (svc : DatabaseService) (w : World)
    (items : List InventoryItem) (h : svc.getInventory w = .ok items) :
    (∀ i ∈ items, i.is_available = true) ∧
    ((∀ r ∈ w.db.inventory, invariantOk r) →
     (∀ row ∈ w.sheets.inventoryValues.getD [],
        invariantOk (parseInventoryRow row)) →
     ∀ i ∈ items, invariantOk i) := by
  unfold DatabaseService.getInventory at h
  by_cases hs : svc.supabase
  · rw [if_pos hs] at h
    have hitems : items = w.db.inventory.filter (·.is_available) := by
      injection h with h'
      exact h'.symm
    subst hitems
    refine ⟨fun i hi => ?_, fun hdb _ i hi => ?_⟩
    · simpa using (List.mem_filter.mp hi).2
    · exact hdb i (List.mem_filter.mp hi).1
  · rw [if_neg hs] at h
    by_cases hsh : svc.sheets
    · rw [if_pos hsh] at h
      have hitems : items = sheetInventoryItems w.sheets.inventoryValues := by
        injection h with h'
        exact h'.symm
      subst hitems
      cases hv : w.sheets.inventoryValues with
      | none => simp [sheetInventoryItems, hv]
      | some rows =>
        simp only [sheetInventoryItems, Option.getD_some]
        refine ⟨fun i hi => ?_, fun _ hrows i hi => ?_⟩
        · simpa using (List.mem_filter.mp hi).2
        · obtain ⟨himem, _⟩ := List.mem_filter.mp hi
          obtain ⟨row, hrow, rfl⟩ := List.mem_map.mp himem
          exact hrows row hrow
    · rw [if_neg hsh] at h
      exact absurd h (by simp)

/-- C1 witness: the amended theorem applied at a concrete relational
state whose single row satisfies the invariant. -/
theorem C1_getInventory_invariant_witness :
    svcRelational.getInventory wGood = .ok [goodItem] ∧
    ((∀ i ∈ [goodItem], i.is_available = true) ∧
     ((∀ r ∈ wGood.db.inventory, invariantOk r) →
      (∀ row ∈ wGood.sheets.inventoryValues.getD [],
         invariantOk (parseInventoryRow row)) →
      ∀ i ∈ [goodItem], invariantOk i)) :=
  ⟨by decide, C1_getInventory_invariant svcRelational wGood [goodItem] (by decide)⟩

/-- C2: counterexample — with neither backend configured,
`updateInventoryQuantity`, `getOrdersByPhone` and `getOrderById` do not
fail with the backend-unavailable error: they return `false`, `[]` and
the absence value, respectively. -/
theorem C2_counterexample :
    svcNoConfig.updateInventoryQuantity w0 1 5 = .ok (false, w0) ∧
    svcNoConfig.updateInventoryQuantity w0 1 5 ≠ .error .noConfig ∧
    svcNoConfig.getOrdersByPhone w0 "+1555" = .ok [] ∧
    svcNoConfig.getOrdersByPhone w0 "+1555" ≠ .error .noConfig ∧
    svcNoConfig.getOrderById w0 1 = .ok none ∧
    svcNoConfig.getOrderById w0 1 ≠ .error .noConfig := by
  decide

/-- C2 (amended): construction is total (the constructor only reads the
environment), and with neither backend configured `getInventory`,
`getItemByName`, `createOrder`, `getFAQs` and `searchFAQ` fail with
`BackendUnavailable`, while `updateInventoryQuantity` returns `false`,
`getOrdersByPhone` returns the empty sequence and `getOrderById` returns
the not-found absence value — these three succeed instead of failing. -/
theorem C2_noConfig (env : Env) (w : World) (itemName : String)
    (orderData : OrderData) (query : String) (itemId newQuantity : Int)
    (phone : String) (orderId : Int)
    (hs : (DatabaseService.make env).supabase = false)
    (hsh : (DatabaseService.make env).sheets = false) :
    (DatabaseService.make env).getInventory w = .error .noConfig ∧
    (DatabaseService.make env).getItemByName w itemName = .error .noConfig ∧
    (DatabaseService.make env).createOrder w orderData = .error .noConfig ∧
    (DatabaseService.make env).getFAQs w = .error .noConfig ∧
    (DatabaseService.make env).searchFAQ w query = .error .noConfig ∧
    (DatabaseService.make env).updateInventoryQuantity w itemId newQuantity
      = .ok (false, w) ∧
    (DatabaseService.make env).getOrdersByPhone w phone = .ok [] ∧
    (DatabaseService.make env).getOrderById w orderId = .ok none := by
  refine ⟨?_, ?_, ?_, ?_, ?_, ?_, ?_, ?_⟩ <;>
    simp [DatabaseService.getInventory, DatabaseService.getItemByName,
      DatabaseService.createOrder, DatabaseService.getFAQs,
      DatabaseService.searchFAQ, DatabaseService.updateInventoryQuantity,
      DatabaseService.getOrdersByPhone, DatabaseService.getOrderById,
      hs, hsh]

/-- C2 witness: the amended theorem applied to the empty environment. -/
theorem C2_noConfig_witness :
    (DatabaseService.make envNoConfig).supabase = false ∧
    (DatabaseService.make envNoConfig).sheets = false ∧
    ((DatabaseService.make envNoConfig).getInventory w0 = .error .noConfig ∧
     (DatabaseService.make envNoConfig).getItemByName w0 "burger"
       = .error .noConfig ∧
     (DatabaseService.make envNoConfig).createOrder w0 orderDataEx
       = .error .noConfig ∧
     (DatabaseService.make envNoConfig).getFAQs w0 = .error .noConfig ∧
     (DatabaseService.make envNoConfig).searchFAQ w0 "refund"
       = .error .noConfig ∧
     (DatabaseService.make envNoConfig).updateInventoryQuantity w0 1 5
       = .ok (false, w0) ∧
     (DatabaseService.make envNoConfig).getOrdersByPhone w0 "+1555"
       = .ok [] ∧
     (DatabaseService.make envNoConfig).getOrderById w0 1 = .ok none) :=
  ⟨by decide, by decide,
   C2_noConfig envNoConfig w0 "burger" orderDataEx "refund" 1 5 "+1555" 1
     (by decide) (by decide)⟩

/-- C3: counterexample — on the relational adapter with no matching row,
`getOrderById` raises the `.single()` no-row error (line 183 throws it)
instead of returning the not-found absence value. -/
theorem C3_counterexample :
    svcRelational.getOrderById w0 5 = .error .singleNoRow ∧
    svcRelational.getOrderById w0 5 ≠ .ok none := by
  decide

/-- C3 (amended): on the relational adapter `getOrderById` returns the
matching order when the id matches exactly one row; when no row matches,
the single-row fetch yields a backend error that is logged and rethrown
rather than an absence value; the not-found absence value (`null`) is
returned only when the relational adapter is not configured. -/
theorem C3_getOrderById (svc : DatabaseService) (w : World) (orderId : Int)
    (o : OrderRow) :
    (svc.supabase = true →
      w.db.orders.filter (fun r => r.id == orderId) = [o] →
      svc.getOrderById w orderId = .ok (some o)) ∧
    (svc.supabase = true →
      w.db.orders.filter (fun r => r.id == orderId) = [] →
      svc.getOrderById w orderId = .error .singleNoRow) ∧
    (svc.supabase = false →
      svc.getOrderById w orderId = .ok none) := by
  refine ⟨fun hs hf => ?_, fun hs hf => ?_, fun hs => ?_⟩
  · simp [DatabaseService.getOrderById, hs, hf]
  · simp [DatabaseService.getOrderById, hs, hf]
  · simp [DatabaseService.getOrderById, hs]

/-- C3 witness: the amended theorem applied at a store holding exactly
one matching order, and at the spreadsheet configuration. -/
theorem C3_getOrderById_witness :
    wOneOrder.db.orders.filter (fun r => r.id == 7) = [orderEx] ∧
    svcRelational.getOrderById wOneOrder 7 = .ok (some orderEx) ∧
    svcSpreadsheet.getOrderById w0 3 = .ok none :=
  ⟨by decide,
   (C3_getOrderById svcRelational wOneOrder 7 orderEx).1 (by decide) (by decide),
   (C3_getOrderById svcSpreadsheet w0 3 orderEx).2.2 (by decide)⟩

/-- C4: on the relational adapter `updateInventoryQuantity` sets the
quantity of every row with the given id to the new quantity, recomputes
`is_available` as `newQuantity > 0`, and returns `true`; on the
spreadsheet adapter it persists nothing (the world is unchanged) and
returns `false` without raising. -/
theorem C4_updateInventoryQuantity (svc : DatabaseService) (w : World)
    (itemId newQuantity : Int) :
    (svc.supabase = true →
      svc.updateInventoryQuantity w itemId newQuantity =
        .ok (true, applyInventoryUpdate w itemId newQuantity) ∧
      ∀ r ∈ (applyInventoryUpdate w itemId newQuantity).db.inventory,
        r.id = some itemId →
          r.quantity = some newQuantity ∧
          r.is_available = decide (0 < newQuantity)) ∧
    (svc.supabase = false → svc.sheets = true →
      svc.updateInventoryQuantity w itemId newQuantity = .ok (false, w)) := by
  constructor
  · intro hs
    refine ⟨by simp [DatabaseService.updateInventoryQuantity, hs], ?_⟩
    intro r hr hid
    simp only [applyInventoryUpdate] at hr
    rcases List.mem_map.mp hr with ⟨r0, _, rfl⟩
    by_cases h0 : r0.id = some itemId
    · simp [h0]
    · simp [h0] at hid
  · intro hs _
    simp [DatabaseService.updateInventoryQuantity, hs]

/-- C4 witness: the theorem applied on the relational adapter at a
one-row store, and on the spreadsheet adapter. -/
theorem C4_updateInventoryQuantity_witness :
    svcRelational.updateInventoryQuantity wGood 1 5 =
      .ok (true, applyInventoryUpdate wGood 1 5) ∧
    svcSpreadsheet.updateInventoryQuantity w0 1 5 = .ok (false, w0) :=
  ⟨((C4_updateInventoryQuantity svcRelational wGood 1 5).1 (by decide)).1,
   (C4_updateInventoryQuantity svcSpreadsheet w0 1 5).2 (by decide) (by decide)⟩

/-- C5: on the spreadsheet adapter `getOrdersByPhone` returns the empty
sequence without raising, and `getOrderById` reports not-found. -/
theorem C5_spreadsheet_orderQueries (svc : DatabaseService) (w : World)
    (phone : String) (orderId : Int)
    (hs : svc.supabase = false) (_hsh : svc.sheets = true) :
    svc.getOrdersByPhone w phone = .ok [] ∧
    svc.getOrderById w orderId = .ok none :=
  ⟨by simp [DatabaseService.getOrdersByPhone, hs],
   by simp [DatabaseService.getOrderById, hs]⟩

/-- C5 witness: the theorem applied to the spreadsheet configuration. -/
theorem C5_spreadsheet_orderQueries_witness :
    svcSpreadsheet.supabase = false ∧ svcSpreadsheet.sheets = true ∧
    (svcSpreadsheet.getOrdersByPhone w0 "+1555" = .ok [] ∧
     svcSpreadsheet.getOrderById w0 1 = .ok none) :=
  ⟨by decide, by decide,
   C5_spreadsheet_orderQueries svcSpreadsheet w0 "+1555" 1 (by decide) (by decide)⟩

/-- C6: `getItemByName` returns the first item of the `getInventory()`
sequence whose name contains the query case-insensitively (`List.find?`
of `matchesName`): absence is returned exactly when no item matches, and
prepending non-matching items to a matching one finds that one. Stated
for inventories whose items all carry a name, as the callback dereferences
each name. -/
theorem C6_getItemByName (svc : DatabaseService) (w : World)
    (itemName : String) (items : List InventoryItem)
    (h : svc.getInventory w = .ok items)
    (hnames : ∀ i ∈ items, i.name.isSome) :
    svc.getItemByName w itemName = .ok (items.find? (matchesName itemName)) ∧
    (items.find? (matchesName itemName) = none ↔
      ∀ i ∈ items, matchesName itemName i = false) ∧
    (∀ l1 j l2, items = l1 ++ j :: l2 → matchesName itemName j = true →
      (∀ i ∈ l1, matchesName itemName i = false) →
      items.find? (matchesName itemName) = some j) := by
  refine ⟨?_, ?_, ?_⟩
  · unfold DatabaseService.getItemByName
    rw [h]
    exact findItemByName_eq_find itemName items hnames
  · constructor
    · intro hnone i hi
      simpa using List.find?_eq_none.mp hnone i hi
    · intro hall
      exact List.find?_eq_none.mpr (fun i hi => by simp [hall i hi])
  · intro l1 j l2 heq hj hl1
    rw [heq]
    exact find_first_append _ l1 j l2 hj hl1

/-- C6 witness: the theorem applied at a one-item relational inventory;
"Cheese Burger" matches the query "BURGER" case-insensitively. -/
theorem C6_getItemByName_witness :
    svcRelational.getInventory wBurger = .ok [burgerItem] ∧
    (∀ i ∈ [burgerItem], i.name.isSome) ∧
    svcRelational.getItemByName wBurger "BURGER" =
      .ok ([burgerItem].find? (matchesName "BURGER")) ∧
    [burgerItem].find? (matchesName "BURGER") = some burgerItem :=
  ⟨by decide, by decide,
   (C6_getItemByName svcRelational wBurger "BURGER" [burgerItem]
      (by decide) (by decide)).1,
   by decide⟩

/-- C7: `searchFAQ` returns the first FAQ of the `getFAQs()` sequence
whose question or answer contains the query case-insensitively
(`List.find?` of `matchesFAQ`): absence is returned exactly when no FAQ
matches, prepending non-matching FAQs keeps the first match, and a FAQ
whose answer alone contains the query does match. Stated for FAQ lists
whose records all carry question and answer. -/
theorem C7_searchFAQ (svc : DatabaseService) (w : World) (query : String)
    (faqs : List FAQ) (h : svc.getFAQs w = .ok faqs)
    (hpresent : ∀ f ∈ faqs, f.question.isSome ∧ f.answer.isSome) :
    svc.searchFAQ w query = .ok (faqs.find? (matchesFAQ query)) ∧
    (faqs.find? (matchesFAQ query) = none ↔
      ∀ f ∈ faqs, matchesFAQ query f = false) ∧
    (∀ l1 j l2, faqs = l1 ++ j :: l2 → matchesFAQ query j = true →
      (∀ f ∈ l1, matchesFAQ query f = false) →
      faqs.find? (matchesFAQ query) = some j) ∧
    (∀ f : FAQ,
      jsIncludes (jsToLower (f.answer.getD "")) (jsToLower query) = true →
      matchesFAQ query f = true) := by
  refine ⟨?_, ?_, ?_, ?_⟩
  · unfold DatabaseService.searchFAQ
    rw [h]
    exact findFAQ_eq_find query faqs hpresent
  · constructor
    · intro hnone f hf
      simpa using List.find?_eq_none.mp hnone f hf
    · intro hall
      exact List.find?_eq_none.mpr (fun f hf => by simp [hall f hf])
  · intro l1 j l2 heq hj hl1
    rw [heq]
    exact find_first_append _ l1 j l2 hj hl1
  · intro f hf
    simp [matchesFAQ, hf]

/-- C7 witness: the theorem applied at a one-FAQ relational table whose
answer, but not question, contains "refund". -/
theorem C7_searchFAQ_witness :
    svcRelational.getFAQs wFAQ = .ok [refundFAQ] ∧
    (∀ f ∈ [refundFAQ], f.question.isSome ∧ f.answer.isSome) ∧
    jsIncludes (jsToLower (refundFAQ.question.getD "")) (jsToLower "refund")
      = false ∧
    svcRelational.searchFAQ wFAQ "refund" =
      .ok ([refundFAQ].find? (matchesFAQ "refund")) ∧
    [refundFAQ].find? (matchesFAQ "refund") = some refundFAQ :=
  ⟨by decide, by decide, by decide,
   (C7_searchFAQ svcRelational wFAQ "refund" [refundFAQ]
      (by decide) (by decide)).1,
   by decide⟩

/-- C8: the order returned by `createOrder` has status "pending",
`created_at` equal to the call-time clock, and its items serialized by
`JSON.stringify`; on the relational adapter its id is the
backend-generated key, while on the spreadsheet adapter the facade
synthesizes `Date.now()`, a timestamp-derived local identifier. -/
theorem C8_createOrder (svc : DatabaseService) (w : World)
    (orderData : OrderData) :
    (svc.supabase = true →
      svc.createOrder w orderData =
        .ok (orderRecord orderData w.now w.db.nextOrderId,
             applyCreateOrderSupabase w orderData) ∧
      (orderRecord orderData w.now w.db.nextOrderId).status = "pending" ∧
      (orderRecord orderData w.now w.db.nextOrderId).created_at = w.now ∧
      (orderRecord orderData w.now w.db.nextOrderId).items =
        stringifyItems orderData.items ∧
      (orderRecord orderData w.now w.db.nextOrderId).id = w.db.nextOrderId) ∧
    (svc.supabase = false → svc.sheets = true →
      svc.createOrder w orderData =
        .ok (orderRecord orderData w.now (w.now : Int),
             applyCreateOrderSheets w orderData) ∧
      (orderRecord orderData w.now (w.now : Int)).status = "pending" ∧
      (orderRecord orderData w.now (w.now : Int)).created_at = w.now ∧
      (orderRecord orderData w.now (w.now : Int)).items =
        stringifyItems orderData.items ∧
      (orderRecord orderData w.now (w.now : Int)).id = (w.now : Int)) := by
  constructor
  · intro hs
    simp [DatabaseService.createOrder, hs, orderRecord]
  · intro hs hsh
    simp [DatabaseService.createOrder, hs, hsh, orderRecord]

/-- C8 witness: the theorem applied on both adapters at concrete inputs. -/
theorem C8_createOrder_witness :
    (svcRelational.createOrder wGood orderDataEx =
       .ok (orderRecord orderDataEx wGood.now wGood.db.nextOrderId,
            applyCreateOrderSupabase wGood orderDataEx)) ∧
    (svcSpreadsheet.createOrder w0 orderDataEx =
       .ok (orderRecord orderDataEx w0.now (w0.now : Int),
            applyCreateOrderSheets w0 orderDataEx)) ∧
    (orderRecord orderDataEx wGood.now wGood.db.nextOrderId).status
      = "pending" :=
  ⟨((C8_createOrder svcRelational wGood orderDataEx).1 (by decide)).1,
   ((C8_createOrder svcSpreadsheet w0 orderDataEx).2 (by decide) (by decide)).1,
   ((C8_createOrder svcRelational wGood orderDataEx).1 (by decide)).2.1⟩

/-- C9: on the relational adapter `getOrdersByPhone` returns exactly the
stored orders whose `customer_phone` equals the given phone (a
permutation of the filtered table), sorted newest-first on `created_at`;
and when `createOrder` runs at a time strictly later than every stored
order's timestamp, the created order is the first element of the sequence
`getOrdersByPhone` then returns for its phone. -/
theorem C9_getOrdersByPhone (svc : DatabaseService) (w : World)
    (phone : String) (orderData : OrderData) (r : OrderRow) (w' : World)
    (hs : svc.supabase = true) :
    svc.getOrdersByPhone w phone = .ok (phoneOrdersSorted w phone) ∧
    (phoneOrdersSorted w phone).Perm
      (w.db.orders.filter fun o => o.customer_phone == phone) ∧
    (phoneOrdersSorted w phone).Sorted newestFirst ∧
    (svc.createOrder w orderData = .ok (r, w') →
     (∀ o ∈ w.db.orders, o.created_at < w.now) →
     (phoneOrdersSorted w' orderData.customerPhone).head? = some r ∧
     r.status = "pending" ∧ r.created_at = w.now ∧
     r.total_amount = orderData.totalAmount) := by
  refine ⟨by simp [DatabaseService.getOrdersByPhone, hs],
          List.perm_insertionSort _ _, List.sorted_insertionSort _ _, ?_⟩
  intro hco hfresh
  simp only [DatabaseService.createOrder, hs, if_true, Except.ok.injEq,
    Prod.mk.injEq] at hco
  obtain ⟨hr, hw'⟩ := hco
  subst hr
  subst hw'
  have hfilter :
      (applyCreateOrderSupabase w orderData).db.orders.filter
        (fun o => o.customer_phone == orderData.customerPhone)
      = (w.db.orders.filter fun o => o.customer_phone == orderData.customerPhone)
        ++ [orderRecord orderData w.now w.db.nextOrderId] := by
    simp [applyCreateOrderSupabase, List.filter_append, orderRecord]
  refine ⟨?_, rfl, rfl, rfl⟩
  rw [phoneOrdersSorted, hfilter]
  exact head_insertionSort_newest _ _ (fun y hy =>
    hfresh y (List.mem_filter.mp hy).1)

/-- C9 witness: the theorem applied at a store holding one older order
with the same phone; the freshly created order comes out first. -/
theorem C9_getOrdersByPhone_witness :
    svcRelational.supabase = true ∧
    (phoneOrdersSorted (applyCreateOrderSupabase wOneOrder orderDataEx)
       "+1555").head? = some (orderRecord orderDataEx 10 8) ∧
    (orderRecord orderDataEx 10 8).status = "pending" ∧
    (orderRecord orderDataEx 10 8).total_amount = orderDataEx.totalAmount :=
  ⟨by decide,
   ((C9_getOrdersByPhone svcRelational wOneOrder "+1555" orderDataEx
      (orderRecord orderDataEx 10 8)
      (applyCreateOrderSupabase wOneOrder orderDataEx)
      (by decide)).2.2.2 (by decide) (by decide)).1,
   ((C9_getOrdersByPhone svcRelational wOneOrder "+1555" orderDataEx
      (orderRecord orderDataEx 10 8)
      (applyCreateOrderSupabase wOneOrder orderDataEx)
      (by decide)).2.2.2 (by decide) (by decide)).2.1,
   ((C9_getOrdersByPhone svcRelational wOneOrder "+1555" orderDataEx
      (orderRecord orderDataEx 10 8)
      (applyCreateOrderSupabase wOneOrder orderDataEx)
      (by decide)).2.2.2 (by decide) (by decide)).2.2.2⟩

/-- C10: on the spreadsheet adapter, when a fetched range holds no row
data at all (`response.data.values` is `undefined`), `getInventory` and
`getFAQs` return the empty sequence instead of raising. -/
theorem C10_emptyRanges (svc : DatabaseService) (w : World)
    (hs : svc.supabase = false) (hsh : svc.sheets = true)
    (hinv : w.sheets.inventoryValues = none)
    (hfaq : w.sheets.faqValues = none) :
    svc.getInventory w = .ok [] ∧ svc.getFAQs w = .ok [] :=
  ⟨by simp [DatabaseService.getInventory, hs, hsh, hinv, sheetInventoryItems],
   by simp [DatabaseService.getFAQs, hs, hsh, hfaq, sheetFAQItems]⟩

/-- C10 witness: the theorem applied to an empty spreadsheet store. -/
theorem C10_emptyRanges_witness :
    svcSpreadsheet.supabase = false ∧ svcSpreadsheet.sheets = true ∧
    w0.sheets.inventoryValues = none ∧ w0.sheets.faqValues = none ∧
    (svcSpreadsheet.getInventory w0 = .ok [] ∧
     svcSpreadsheet.getFAQs w0 = .ok []) :=
  ⟨by decide, by decide, by decide, by decide,
   C10_emptyRanges svcSpreadsheet w0 (by decide) (by decide)
     (by decide) (by decide)⟩

end FoodAgent
